import Mathlib

/-!
Verification of the client-side synchronization core of the Prodigy frontend
(src/frontend/src/App.js): the Kanban task-status engine (`KanbanBoard`,
`getTasksByStatus`, `onDragEnd`, `updateTask`) and the fetch/mutation protocol
it relies on. Shallow embedding: the JavaScript functions are translated to
executable Lean definitions; the asynchronous mutation lifecycle of
`useMutation` is rendered as an explicit trace of events.
-/

namespace Prodigy

/-- A task resource as consumed by the board.  JavaScript is untyped, so
`status` is an arbitrary string here; the four column statuses are the
well-formed values. Mirrors the Task fields used by `KanbanBoard`
(App.js lines 528-540). -/
structure Task where
  id : String
  title : String
  description : Option String
  status : String
  projectId : String
deriving DecidableEq

/-- The `columns` object of `KanbanBoard` (App.js lines 496-501): insertion
order of the JavaScript object literal, pairing the status key with the
display title. -/
def columns : List (String × String) :=
  [("backlog", "Backlog"), ("todo", "To Do"),
   ("in_progress", "In Progress"), ("done", "Done")]

/-- The four column status keys, in the order `Object.entries(columns)`
yields them. -/
def columnStatuses : List String := columns.map Prod.fst

/-- `getTasksByStatus` (App.js line 503):
`(status) => tasks.filter(task => task.status === status)`. -/
def getTasksByStatus (tasks : List Task) (status : String) : List Task :=
  tasks.filter (fun task => task.status == status)

/-- The destructured `result.destination` of a react-beautiful-dnd drop
result: the column it was dropped into. -/
structure DragDestination where
  droppableId : String
  index : Nat
deriving DecidableEq

/-- The drop result delivered to `onDragEnd` (App.js line 505):
`draggableId` is the task id, `destination` is `null` when the drag was
cancelled outside any column. -/
structure DragResult where
  draggableId : String
  destination : Option DragDestination
deriving DecidableEq

/-- The variables passed to `updateTask.mutate` (App.js line 512):
`{ taskId, status: newStatus }`. -/
structure UpdateTaskArgs where
  taskId : String
  status : String
deriving DecidableEq

/-- `onDragEnd` (App.js lines 505-513).  Returns the mutation call it
issues, or `none` when it returns without mutating.  Faithful to the
source: the only guard is `if (!result.destination) return;` — there is no
comparison of the destination status with the current status of the task. -/
def onDragEnd (result : DragResult) : Option UpdateTaskArgs :=
  match result.destination with
  | none => none
  | some destination =>
      some { taskId := result.draggableId, status := destination.droppableId }

/-- An HTTP request as assembled by `createApiCall` (App.js lines 97-113):
method, path under the API root, and a JSON body rendered as key-value
pairs. -/
structure Request where
  method : String
  path : String
  body : List (String × String)
deriving DecidableEq

/-- The `mutationFn` of `updateTask` (App.js line 492):
`({ taskId, ...data }) => apiCall(/tasks/taskId, { method: PUT, data })`,
where the rest-spread `data` is `{ status }`. -/
def updateTaskRequest (args : UpdateTaskArgs) : Request :=
  { method := "PUT",
    path := "/tasks/" ++ args.taskId,
    body := [("status", args.status)] }

/-- Observable events of one `useMutation` execution, in program order:
the network write being issued, the promise settling, and any
`invalidateQueries` calls fired by the settlement callbacks. -/
inductive MEvent where
  | issueWrite (req : Request)
  | settleSuccess
  | settleFailure (err : String)
  | invalidate (key : List String)
deriving DecidableEq

/-- The event trace of `updateTask.mutate` (App.js lines 491-494) for a
given settlement outcome.  The source registers only `mutationFn` and
`onSuccess` — no `onMutate` (so no optimistic patch event precedes the
write), no `onError` and no `onSettled` (so a failed mutation fires no
callback at all). -/
def runUpdateTask (projectId : String) (args : UpdateTaskArgs)
    (outcome : Except String (List Task)) : List MEvent :=
  MEvent.issueWrite (updateTaskRequest args) ::
  match outcome with
  | Except.ok _ => [MEvent.settleSuccess, MEvent.invalidate ["tasks", projectId]]
  | Except.error e => [MEvent.settleFailure e]

/-- The complete effect of a drop gesture on the board: `onDragEnd`
followed, when it issues a mutation, by the mutation lifecycle. -/
def handleDragEnd (projectId : String) (result : DragResult)
    (outcome : Except String (List Task)) : List MEvent :=
  match onDragEnd result with
  | none => []
  | some args => runUpdateTask projectId args outcome

/-- Number of network writes in a trace. -/
def networkWrites (tr : List MEvent) : Nat :=
  (tr.filter (fun e => match e with | MEvent.issueWrite _ => true | _ => false)).length

/-- The query keys passed to `invalidateQueries` in a trace, in order. -/
def invalidatedKeys (tr : List MEvent) : List (List String) :=
  tr.filterMap (fun e => match e with | MEvent.invalidate k => some k | _ => none)

/-- Whether an event is the settlement of the mutation promise. -/
def isSettled (e : MEvent) : Bool :=
  match e with
  | MEvent.settleSuccess => true
  | MEvent.settleFailure _ => true
  | _ => false

/-- Whether an event is an `invalidateQueries` call. -/
def isInvalidate (e : MEvent) : Bool :=
  match e with
  | MEvent.invalidate _ => true
  | _ => false

/-- Every invalidation in the trace occurs strictly after some settlement
event. -/
def settledBeforeInvalidation (tr : List MEvent) : Prop :=
  ∀ pre e suf, tr = pre ++ e :: suf → isInvalidate e = true → pre.any isSettled = true

/-- The react-query cache entry for the key `[tasks, projectId]`, as the
board observes it: the cached task list (absent before the first fetch),
a version counter and the staleness flag set by invalidation. -/
structure BoardCache where
  tasks : Option (List Task)
  version : Nat
  stale : Bool
deriving DecidableEq

/-- Effect of one mutation-lifecycle event on the cache entry.  Faithful to
the source: no event of `updateTask` writes the cached data — there is no
`onMutate`/`setQueryData` anywhere in `KanbanBoard` — so only
`invalidateQueries` touches the entry, marking it stale for the refetch. -/
def applyEvent (c : BoardCache) (e : MEvent) : BoardCache :=
  match e with
  | MEvent.invalidate _ => { c with stale := true }
  | _ => c

/-- The cache entry as observed while the write is in flight: the events
preceding settlement have run, settlement callbacks have not. -/
def cacheDuringFlight (c : BoardCache) (tr : List MEvent) : BoardCache :=
  (tr.takeWhile (fun e => !isSettled e)).foldl applyEvent c

/-- The cache entry after the whole mutation trace has run. -/
def cacheAfter (c : BoardCache) (tr : List MEvent) : BoardCache :=
  tr.foldl applyEvent c

/-- The mutation state react-query exposes to the component after
settlement (`updateTask.error`, `updateTask.isSuccess`). -/
structure MutationState where
  error : Option String
  isSuccess : Bool
deriving DecidableEq

/-- The settled mutation state for a given outcome: a rejected
`mutationFn` promise is captured in the `error` field of the mutation
object — that is the only surfacing the source performs. -/
def mutationOutcomeState (outcome : Except String (List Task)) : MutationState :=
  match outcome with
  | Except.ok _ => { error := none, isSuccess := true }
  | Except.error e => { error := some e, isSuccess := false }

/-- The default applied at App.js line 489:
`const { data: tasks = [] } = useQuery(...)` — absent query data becomes
the empty list. -/
def tasksOrDefault (cached : Option (List Task)) : List Task :=
  cached.getD []

/-- The render-relevant state of the `KanbanBoard` component.  The
component declares no `useState`: everything it can observe is the cached
query data and the mutation object state. -/
structure KanbanState where
  cache : Option (List Task)
  mutationPending : Bool
  mutationError : Option String
deriving DecidableEq

/-- The rendered board (App.js lines 515-553): for each entry of
`columns`, in order, the column status paired with
`getTasksByStatus(status)` computed from the cached task list. -/
def renderBoard (st : KanbanState) : List (String × List Task) :=
  columns.map (fun c => (c.1, getTasksByStatus (tasksOrDefault st.cache) c.1))

/-- Modelled from the spec: the Fetch Coordinator (spec section 4.2) is the
query library the frontend depends on, whose implementation is not part of
src/.  Per the spec, it keeps an in-flight registry mapping each key to the
pending fetch it started, and a log records every network fetch actually
performed. -/
structure Coordinator where
  inFlight : List (List String × Nat)
  nextId : Nat
  fetchLog : List (List String)
deriving DecidableEq

/-- Modelled from the spec: `ensureFresh(key)` — if no in-flight request
exists for the key, start one (recording a network fetch and handing back a
fresh pending-result id); if one exists, hand back the same pending-result
id without any network operation. -/
def ensureFresh (c : Coordinator) (key : List String) : Coordinator × Nat :=
  match c.inFlight.find? (fun p => p.1 == key) with
  | some p => (c, p.2)
  | none =>
      ({ inFlight := (key, c.nextId) :: c.inFlight,
         nextId := c.nextId + 1,
         fetchLog := c.fetchLog ++ [key] }, c.nextId)

/-- N consecutive `ensureFresh` calls for the same key, all issued before
any of them resolves; returns the final coordinator state and the
pending-result ids handed to the callers in order. -/
def ensureFreshN (c : Coordinator) (key : List String) : Nat → Coordinator × List Nat
  | 0 => (c, [])
  | Nat.succ n =>
      let step := ensureFresh c key
      let rest := ensureFreshN step.1 key n
      (rest.1, step.2 :: rest.2)

/-! ## Theorems -/

/-- C7: for every drag gesture with no destination (drag cancelled outside
any column), the drag handler is a no-op: no mutation is issued — the event
trace is empty — and the cache state is unchanged. -/
theorem dragCancelledNoOp (projectId : String) (result : DragResult)
    (outcome : Except String (List Task)) (c : BoardCache)
    (h : result.destination = none) :
    handleDragEnd projectId result outcome = [] ∧
    cacheAfter c (handleDragEnd projectId result outcome) = c := by
  have hnone : onDragEnd result = none := by simp [onDragEnd, h]
  refine ⟨?_, ?_⟩ <;> simp [handleDragEnd, hnone, cacheAfter]

theorem dragCancelledNoOp_witness :
    handleDragEnd "p1" { draggableId := "t1", destination := none } (Except.ok []) = [] ∧
    cacheAfter { tasks := none, version := 0, stale := false }
      (handleDragEnd "p1" { draggableId := "t1", destination := none } (Except.ok []))
      = { tasks := none, version := 0, stale := false } :=
  dragCancelledNoOp "p1" { draggableId := "t1", destination := none } (Except.ok [])
    { tasks := none, version := 0, stale := false } rfl

/-- C8: every task-status mutation issued by a drop gesture performs a PUT
request to the path `/tasks/{taskId}` whose body carries the destination
status, matching the externally-defined update-task contract. -/
theorem dropIssuesPutRequest (projectId : String) (result : DragResult)
    (d : DragDestination) (outcome : Except String (List Task))
    (h : result.destination = some d) :
    MEvent.issueWrite
        { method := "PUT",
          path := "/tasks/" ++ result.draggableId,
          body := [("status", d.droppableId)] }
      ∈ handleDragEnd projectId result outcome := by
  cases outcome <;>
    simp [handleDragEnd, onDragEnd, h, runUpdateTask, updateTaskRequest]

theorem dropIssuesPutRequest_witness :
    MEvent.issueWrite
        { method := "PUT", path := "/tasks/" ++ "t1",
          body := [("status", "done")] }
      ∈ handleDragEnd "p1"
          { draggableId := "t1", destination := some { droppableId := "done", index := 0 } }
          (Except.ok []) :=
  dropIssuesPutRequest "p1"
    { draggableId := "t1", destination := some { droppableId := "done", index := 0 } }
    { droppableId := "done", index := 0 } (Except.ok []) rfl

/-- C6: the rendered board is a function of the cached task list alone —
the component keeps no separate local copy of task status or order, so two
component states agreeing on the cache render identically, whatever their
mutation-object state. -/
theorem renderDependsOnlyOnCache (s1 s2 : KanbanState) (h : s1.cache = s2.cache) :
    renderBoard s1 = renderBoard s2 := by
  simp [renderBoard, h]

theorem renderDependsOnlyOnCache_witness :
    renderBoard { cache := some [], mutationPending := true, mutationError := some "err" } =
    renderBoard { cache := some [], mutationPending := false, mutationError := none } :=
  renderDependsOnlyOnCache
    { cache := some [], mutationPending := true, mutationError := some "err" }
    { cache := some [], mutationPending := false, mutationError := none } rfl

/-- C10: while the task-list query has produced no data, the board operates
on the empty list: the tasks value defaults to `[]`, every column filter
returns the empty list, and the board renders all four columns empty. -/
theorem absentDataRendersEmpty (mp : Bool) (me : Option String) :
    tasksOrDefault none = [] ∧
    (∀ s, getTasksByStatus (tasksOrDefault none) s = []) ∧
    renderBoard { cache := none, mutationPending := mp, mutationError := me }
      = columns.map (fun c => (c.1, [])) := by
  refine ⟨rfl, fun s => rfl, rfl⟩

/-- C1 counterexample: a drop whose destination status equals the current
status of the task ("todo" onto "todo") still issues one network write and,
on success, one cache invalidation — the handler performs no same-status
check, refuting the claimed zero-mutation no-op. -/
theorem sameStatusDropStillWrites_counterexample :
    (DragResult.destination
        { draggableId := "t1",
          destination := some { droppableId := "todo", index := 0 } }).map
        DragDestination.droppableId
      = some (Task.status
          { id := "t1", title := "T", description := none,
            status := "todo", projectId := "p1" }) ∧
    networkWrites (handleDragEnd "p1"
        { draggableId := "t1", destination := some { droppableId := "todo", index := 0 } }
        (Except.ok [{ id := "t1", title := "T", description := none,
                      status := "todo", projectId := "p1" }])) = 1 ∧
    invalidatedKeys (handleDragEnd "p1"
        { draggableId := "t1", destination := some { droppableId := "todo", index := 0 } }
        (Except.ok [{ id := "t1", title := "T", description := none,
                      status := "todo", projectId := "p1" }])) = [["tasks", "p1"]] := by
  refine ⟨rfl, rfl, rfl⟩

/-- C1 amended: every drop gesture with a destination issues exactly one
network write, even when the destination status equals the current status
of the task — the handler never compares statuses, so a same-column drop is
a redundant write rather than a no-op. -/
theorem dropAlwaysMutates (projectId : String) (result : DragResult)
    (d : DragDestination) (outcome : Except String (List Task))
    (h : result.destination = some d) :
    networkWrites (handleDragEnd projectId result outcome) = 1 := by
  cases outcome <;>
    simp [handleDragEnd, onDragEnd, h, runUpdateTask, networkWrites]

theorem dropAlwaysMutates_witness :
    networkWrites (handleDragEnd "p1"
      { draggableId := "t1", destination := some { droppableId := "todo", index := 0 } }
      (Except.ok [])) = 1 :=
  dropAlwaysMutates "p1"
    { draggableId := "t1", destination := some { droppableId := "todo", index := 0 } }
    { droppableId := "todo", index := 0 } (Except.ok []) rfl

/-- C2 counterexample: dragging a "todo" task to "done" does not patch the
cache before the write — while the write is in flight the cached status of
the task is still "todo", not the claimed destination status "done".  The
mutation registers no `onMutate`, so no optimistic patch exists at all. -/
theorem noOptimisticPatch_counterexample :
    (cacheDuringFlight
        { tasks := some [{ id := "t1", title := "T", description := none,
                           status := "todo", projectId := "p1" }],
          version := 0, stale := false }
        (handleDragEnd "p1"
          { draggableId := "t1", destination := some { droppableId := "done", index := 0 } }
          (Except.ok []))).tasks.map (fun l => l.map Task.status)
      = some ["todo"] ∧
    ¬ ((cacheDuringFlight
        { tasks := some [{ id := "t1", title := "T", description := none,
                           status := "todo", projectId := "p1" }],
          version := 0, stale := false }
        (handleDragEnd "p1"
          { draggableId := "t1", destination := some { droppableId := "done", index := 0 } }
          (Except.ok []))).tasks.map (fun l => l.map Task.status)
      = some ["done"]) := by
  refine ⟨rfl, ?_⟩
  decide

/-- C2 amended: no optimistic patch is applied at all — for every drop
gesture the cached entry is bit-for-bit unchanged while the write is in
flight; the cached task list only changes after settlement via the
invalidation-triggered refetch. -/
theorem noPatchDuringFlight (c : BoardCache) (projectId : String)
    (result : DragResult) (outcome : Except String (List Task)) :
    cacheDuringFlight c (handleDragEnd projectId result outcome) = c := by
  cases hr : onDragEnd result <;> cases outcome <;>
    simp [handleDragEnd, hr, runUpdateTask, cacheDuringFlight, isSettled,
      applyEvent, List.takeWhile]

/-- C3 counterexample: after a failed task-status mutation no invalidation
happens at all — `invalidateQueries` is registered only under `onSuccess` —
refuting the claim that the affected key is invalidated anyway on
failure. -/
theorem noInvalidationOnFailure_counterexample :
    invalidatedKeys (handleDragEnd "p1"
        { draggableId := "t1", destination := some { droppableId := "done", index := 0 } }
        (Except.error "network error")) = [] ∧
    ¬ (["tasks", "p1"] ∈ invalidatedKeys (handleDragEnd "p1"
        { draggableId := "t1", destination := some { droppableId := "done", index := 0 } }
        (Except.error "network error"))) := by
  refine ⟨rfl, ?_⟩
  decide

/-- C3 amended: for every task-status mutation whose remote write fails,
the cached task list equals its pre-drag snapshot (it was never
optimistically changed, so no rollback is needed), the error is recorded in
the mutation state exposed to the component, and the affected key is NOT
invalidated — the source fires no callback on failure. -/
theorem failedMutationOutcome (c : BoardCache) (projectId : String)
    (args : UpdateTaskArgs) (e : String) :
    cacheAfter c (runUpdateTask projectId args (Except.error e)) = c ∧
    (mutationOutcomeState (Except.error e)).error = some e ∧
    invalidatedKeys (runUpdateTask projectId args (Except.error e)) = [] := by
  refine ⟨?_, rfl, ?_⟩ <;>
    simp [cacheAfter, runUpdateTask, applyEvent, invalidatedKeys]

/-- C5: every task-status mutation that settles successfully invalidates
exactly the query key `[tasks, projectId]` of the project of the board, and
every invalidation in the trace occurs strictly after a settlement
event. -/
theorem successInvalidatesExactlyProjectKey (projectId : String)
    (args : UpdateTaskArgs) (response : List Task) :
    invalidatedKeys (runUpdateTask projectId args (Except.ok response))
      = [["tasks", projectId]] ∧
    settledBeforeInvalidation (runUpdateTask projectId args (Except.ok response)) := by
  constructor
  · simp [runUpdateTask, invalidatedKeys]
  · intro pre e suf hEq hInv
    cases pre with
    | nil =>
        simp only [runUpdateTask, List.nil_append, List.cons.injEq] at hEq
        rw [← hEq.1] at hInv
        simp [isInvalidate] at hInv
    | cons a pre1 =>
      cases pre1 with
      | nil =>
          simp only [runUpdateTask, List.cons_append, List.nil_append,
            List.cons.injEq] at hEq
          rw [← hEq.2.1] at hInv
          simp [isInvalidate] at hInv
      | cons b pre2 =>
        cases pre2 with
        | nil =>
            simp only [runUpdateTask, List.cons_append, List.nil_append,
              List.cons.injEq] at hEq
            simp [List.any, ← hEq.2.1, isSettled]
        | cons d pre3 =>
            have hlen := congrArg List.length hEq
            simp [runUpdateTask] at hlen

/-- Counting a task in one derived column: it is counted when the column
status matches its own status, and absent otherwise. -/
theorem count_getTasksByStatus (tasks : List Task) (s : String) (t : Task) :
    (getTasksByStatus tasks s).count t
      = if t.status = s then tasks.count t else 0 := by
  by_cases h : t.status = s
  · rw [if_pos h]
    exact List.count_filter (by simp [h])
  · rw [if_neg h]
    refine List.count_eq_zero.mpr ?_
    intro hmem
    rw [getTasksByStatus, List.mem_filter] at hmem
    exact h (by simpa using hmem.2)

/-- C4: for every task list whose statuses are among the four column
statuses, the four derived column filters partition the list: their
concatenation is a permutation of the full task list, and the filters for
two distinct statuses are disjoint — every task appears in exactly one
column. -/
theorem columnPartition (tasks : List Task)
    (hvalid : ∀ t ∈ tasks, t.status ∈ columnStatuses) :
    ((columnStatuses.map (getTasksByStatus tasks)).flatten).Perm tasks ∧
    (∀ s1 s2, s1 ≠ s2 →
      ∀ t, t ∈ getTasksByStatus tasks s1 → t ∉ getTasksByStatus tasks s2) := by
  constructor
  · rw [List.perm_iff_count]
    intro t
    rw [List.count_flatten]
    by_cases hmem : t ∈ tasks
    · have hst := hvalid t hmem
      simp only [columnStatuses, columns, List.map_cons, List.map_nil,
        List.mem_cons, List.not_mem_nil, or_false] at hst ⊢
      rcases hst with h | h | h | h <;>
        simp [count_getTasksByStatus, h]
    · have hz : tasks.count t = 0 := List.count_eq_zero.mpr hmem
      simp [columnStatuses, columns, count_getTasksByStatus, hz]
  · intro s1 s2 hne t ht1 ht2
    rw [getTasksByStatus, List.mem_filter] at ht1 ht2
    have h1 : t.status = s1 := by simpa using ht1.2
    have h2 : t.status = s2 := by simpa using ht2.2
    exact hne (h1 ▸ h2)

theorem columnPartition_witness :
    ((columnStatuses.map (getTasksByStatus
        [{ id := "t1", title := "A", description := none,
           status := "todo", projectId := "p1" },
         { id := "t2", title := "B", description := none,
           status := "done", projectId := "p1" }])).flatten).Perm
      [{ id := "t1", title := "A", description := none,
         status := "todo", projectId := "p1" },
       { id := "t2", title := "B", description := none,
         status := "done", projectId := "p1" }] ∧
    (∀ s1 s2, s1 ≠ s2 →
      ∀ t, t ∈ getTasksByStatus
        [{ id := "t1", title := "A", description := none,
           status := "todo", projectId := "p1" },
         { id := "t2", title := "B", description := none,
           status := "done", projectId := "p1" }] s1 →
        t ∉ getTasksByStatus
        [{ id := "t1", title := "A", description := none,
           status := "todo", projectId := "p1" },
         { id := "t2", title := "B", description := none,
           status := "done", projectId := "p1" }] s2) :=
  columnPartition
    [{ id := "t1", title := "A", description := none,
       status := "todo", projectId := "p1" },
     { id := "t2", title := "B", description := none,
       status := "done", projectId := "p1" }] (by decide)

/-- A repeated `ensureFresh` call that finds the key in flight returns the
registered pending result and leaves the coordinator untouched. -/
theorem ensureFresh_hit (c : Coordinator) (key : List String)
    (p : List String × Nat)
    (h : c.inFlight.find? (fun q => q.1 == key) = some p) :
    ensureFresh c key = (c, p.2) := by
  simp [ensureFresh, h]

/-- While a fetch for the key is registered in flight, any number of
further `ensureFresh` calls change nothing and all hand back the same
pending result. -/
theorem ensureFreshN_hit (c : Coordinator) (key : List String)
    (p : List String × Nat)
    (h : c.inFlight.find? (fun q => q.1 == key) = some p) (m : Nat) :
    ensureFreshN c key m = (c, List.replicate m p.2) := by
  induction m with
  | zero => simp [ensureFreshN]
  | succ k ih => simp [ensureFreshN, ensureFresh_hit c key p h, ih, List.replicate]

/-- C9: if N concurrent fetch requests for a key are issued before the
first resolves (no fetch for the key in flight initially), exactly one
network fetch for the key is performed, and every caller receives the same
pending result. -/
theorem fetchDeduplication (c : Coordinator) (key : List String) (n : Nat)
    (hfree : c.inFlight.find? (fun q => q.1 == key) = none) (hn : 1 ≤ n) :
    (ensureFreshN c key n).1.fetchLog.count key = c.fetchLog.count key + 1 ∧
    ∀ i ∈ (ensureFreshN c key n).2, i = c.nextId := by
  obtain ⟨m, rfl⟩ : ∃ m, n = m + 1 := ⟨n - 1, by omega⟩
  have hstep : ensureFresh c key =
      ({ inFlight := (key, c.nextId) :: c.inFlight,
         nextId := c.nextId + 1,
         fetchLog := c.fetchLog ++ [key] }, c.nextId) := by
    simp [ensureFresh, hfree]
  have hfind :
      (({ inFlight := (key, c.nextId) :: c.inFlight,
          nextId := c.nextId + 1,
          fetchLog := c.fetchLog ++ [key] } : Coordinator)).inFlight.find?
        (fun q => q.1 == key) = some (key, c.nextId) := by
    simp [List.find?_cons]
  have hrest := ensureFreshN_hit _ key (key, c.nextId) hfind m
  constructor
  · show ((ensureFreshN c key (m + 1)).1).fetchLog.count key = _
    rw [ensureFreshN, hstep]
    simp only [hrest, List.count_append]
    simp
  · intro i hi
    rw [ensureFreshN, hstep] at hi
    simp only [hrest, List.mem_cons, List.mem_replicate] at hi
    rcases hi with h | h
    · exact h
    · exact h.2

theorem fetchDeduplication_witness :
    (ensureFreshN { inFlight := [], nextId := 0, fetchLog := [] }
        ["tasks", "p1"] 3).1.fetchLog.count ["tasks", "p1"]
      = ({ inFlight := [], nextId := 0, fetchLog := [] } :
          Coordinator).fetchLog.count ["tasks", "p1"] + 1 ∧
    ∀ i ∈ (ensureFreshN { inFlight := [], nextId := 0, fetchLog := [] }
        ["tasks", "p1"] 3).2,
      i = ({ inFlight := [], nextId := 0, fetchLog := [] } : Coordinator).nextId :=
  fetchDeduplication { inFlight := [], nextId := 0, fetchLog := [] }
    ["tasks", "p1"] 3 rfl (by decide)

end Prodigy
